import Mathlib

/-!
Verification of the `client/bgpinfo.py` module of morrowc/bgp_infrastructure.

The module, executed top to bottom, does:
  lines 9-10 : `config = configparser.ConfigParser(); config.read("config.ini")`
  lines 11-12: `server = str(config.get('grpc', 'server'))`
               `port   = str(config.get('grpc', 'port'))`
  line 15    : `grpcserver = "%s:%s" % (server, port)`
  line 16    : `channel = grpc.insecure_channel(grpcserver)`
  line 17    : `stub = bgpinfo_pb2_grpc.bgp_infoStub(channel)`
  lines 20-25: under `if __name__ == "__main__":`
               `current_values = pb.values(time = int(time.time()))`
               `result = stub.add_latest(current_values)`
               `print(result)`

We embed the module as a function from an external world (state of the
config file, the clock reading, the outcome the transport would deliver for
the single RPC, and whether the module runs as the main program) to the
ordered list of observable events it performs together with its outcome
(normal termination or an uncaught exception).
-/

namespace BgpInfo

/-- Parsed sections of an INI file, as `configparser` holds them after a
successful parse: a list of named sections, each a list of key/value pairs. -/
abbrev Sections := List (String × List (String × String))

/-- The state the file named `config.ini` can be in when the module loads. -/
inductive FileState where
  | missing
  | unreadable
  | malformed
  | wellFormed (sections : Sections)
deriving DecidableEq, Repr

/-- The `configparser` exceptions the module can raise while resolving its
configuration (all subclasses of `configparser.Error`; the spec's
`ConfigurationError` kind). -/
inductive ConfigError where
  | parsingError
  | noSection (sect : String)
  | noOption (sect : String) (key : String)
deriving DecidableEq, Repr

/-- `config.read("config.ini")` (line 10): `ConfigParser.read` opens the file,
silently skipping it on `OSError` (missing or unreadable file), and raises a
`configparser` parsing error on malformed contents; on a skipped file the
parser simply remains empty. -/
def configRead (fs : FileState) : Except ConfigError Sections :=
  match fs with
  | .missing => .ok []
  | .unreadable => .ok []
  | .malformed => .error .parsingError
  | .wellFormed s => .ok s

/-- Look a section up by name, as the parser does. -/
def sectLookup (s : Sections) (name : String) : Option (List (String × String)) :=
  match s with
  | [] => none
  | (n, kvs) :: rest => if n = name then some kvs else sectLookup rest name

/-- Look a key up inside a section. -/
def kvLookup (kvs : List (String × String)) (key : String) : Option String :=
  match kvs with
  | [] => none
  | (k, v) :: rest => if k = key then some v else kvLookup rest key

/-- `config.get(sect, key)` (lines 11-12): raises `NoSectionError` when the
section is absent, `NoOptionError` when the key is absent from the section,
and returns the stored string otherwise. -/
def configGet (s : Sections) (sect key : String) : Except ConfigError String :=
  match sectLookup s sect with
  | none => .error (.noSection sect)
  | some kvs =>
    match kvLookup kvs key with
    | none => .error (.noOption sect key)
    | some v => .ok v

/-- Python `str` applied to the string `config.get` returned (lines 11-12):
the identity on strings. -/
def pyStr (s : String) : String := s

/-- Lines 9-12 as one step: read the file, then fetch `server` and `port`
from the `grpc` section, coercing each with `str`. The first raised
exception aborts the module. -/
def resolveConfig (fs : FileState) : Except ConfigError (String × String) :=
  match configRead fs with
  | .error e => .error e
  | .ok sections =>
    match configGet sections "grpc" "server" with
    | .error e => .error e
    | .ok server =>
      match configGet sections "grpc" "port" with
      | .error e => .error e
      | .ok port => .ok (pyStr server, pyStr port)

/-- Line 15: `grpcserver = "%s:%s" % (server, port)`. On string arguments the
`%s` conversions insert the strings themselves, so the result is the host,
one colon character, then the port. -/
def grpcserver (server port : String) : String := server ++ ":" ++ port

/-- Python `int` applied to a real clock reading (line 22): truncation toward
zero. We model the clock value as a rational. -/
def pyInt (q : ℚ) : ℤ := if 0 ≤ q then ⌊q⌋ else ⌈q⌉

/-- The `pb.values` protobuf message: its one field used here, `time`. -/
structure values where
  time : ℤ
deriving DecidableEq, Repr

/-- Line 21-23: `current_values = pb.values(time = int(time.time()))`,
as a function of the clock reading `time.time()` returned. -/
def current_values (clock : ℚ) : values := ⟨pyInt clock⟩

/-- Modelled from the spec: `currentUnixSeconds()` is the integer count of
seconds elapsed since the epoch, i.e. the whole-second part of the clock
reading. This is the spec-side definition the built request is compared
against. -/
def currentUnixSeconds (clock : ℚ) : ℤ := ⌊clock⌋

/-- The transport-level failure of the single `stub.add_latest` call
(a `grpc.RpcError`; status code and message supplied by the transport). -/
inductive RpcError where
  | failed (code : String) (msg : String)
deriving DecidableEq, Repr

/-- An uncaught Python exception reaching the top of the process. -/
inductive PyError where
  | configError (e : ConfigError)
  | rpcError (e : RpcError)
deriving DecidableEq, Repr

/-- The observable events of one execution of the module, in order. -/
inductive Event where
  | readConfig
  | openChannel (target : String)
  | bindStub
  | buildReq (t : ℤ)
  | invokeRpc (t : ℤ)
  | printOutput (s : String)
deriving DecidableEq, Repr

/-- The external world one execution of the module sees: the state of
`config.ini`, the value `time.time()` returns, what the transport does with
the single `stub.add_latest` call (a response, rendered to the string
`print` would write, or an `RpcError`), and whether `__name__` equals
`"__main__"`. -/
structure World where
  file : FileState
  clock : ℚ
  rpcResult : Except RpcError String
  isMain : Bool

/-- The whole module, top to bottom.  Lines 9-17 run unconditionally when the
module loads: configuration resolution, then — only if it succeeded —
channel creation against `grpcserver` and stub binding.  Lines 21-25 run
only under the `__name__ == "__main__"` guard: build the request, issue the
one `add_latest` call, and `print` the result if the call returned one.
Nothing in the file catches an exception, so the first one raised becomes
the outcome. -/
def runModule (w : World) : List Event × Except PyError Unit :=
  match resolveConfig w.file with
  | .error e => ([.readConfig], .error (.configError e))
  | .ok (server, port) =>
    let loadEvents : List Event :=
      [.readConfig, .openChannel (grpcserver server port), .bindStub]
    if w.isMain then
      let t := (current_values w.clock).time
      match w.rpcResult with
      | .error e =>
        (loadEvents ++ [.buildReq t, .invokeRpc t], .error (.rpcError e))
      | .ok resp =>
        (loadEvents ++ [.buildReq t, .invokeRpc t, .printOutput resp], .ok ())
    else
      (loadEvents, .ok ())

/-- The exit status of the Python process: 0 on normal termination, 1 when
an uncaught exception terminates it. -/
def exitCode (r : Except PyError Unit) : Nat :=
  match r with
  | .ok _ => 0
  | .error _ => 1

/-- Recognise a channel-creation event. -/
def isOpenChannel : Event → Bool
  | .openChannel _ => true
  | _ => false

/-- Recognise the RPC invocation event. -/
def isInvoke : Event → Bool
  | .invokeRpc _ => true
  | _ => false

/-- Recognise a write to standard output. -/
def isOutput : Event → Bool
  | .printOutput _ => true
  | _ => false

/-- `true` when every `invokeRpc` event in the list is preceded by an
`openChannel` event; `seen` records whether a channel was opened already. -/
def opensBeforeInvokesGo (es : List Event) (seen : Bool) : Bool :=
  match es with
  | [] => true
  | e :: rest =>
    if isInvoke e then seen && opensBeforeInvokesGo rest seen
    else opensBeforeInvokesGo rest (seen || isOpenChannel e)

/-- Every RPC invocation in the trace happens after some channel creation. -/
def opensBeforeInvokes (es : List Event) : Bool := opensBeforeInvokesGo es false

/-- The config source is missing, unreadable, malformed, or lacks the
`server` or `port` key of the `grpc` section — the failure modes the spec
enumerates for configuration resolution. -/
def badSource (fs : FileState) : Prop :=
  fs = .missing ∨ fs = .unreadable ∨ fs = .malformed ∨
  (∃ s, fs = .wellFormed s ∧
    ((configGet s "grpc" "server").isOk = false ∨
     (configGet s "grpc" "port").isOk = false))

/-- A well-formed configuration holding both required keys, as in the spec's
success scenario. -/
def goodSections : Sections := [("grpc", [("server", "127.0.0.1"), ("port", "50051")])]

/-- A run as the main program with a good config and a successful RPC. -/
def wOk : World := ⟨.wellFormed goodSections, 3, .ok "ok: true", true⟩

/-- A run as the main program with a good config whose RPC call fails. -/
def wFail : World :=
  ⟨.wellFormed goodSections, 3, .error (.failed "UNAVAILABLE" "failed to connect"), true⟩

/-- The module merely imported (not run as the main program). -/
def wImport : World := ⟨.wellFormed goodSections, 3, .ok "ok: true", false⟩

/-- The module run as the main program with `config.ini` absent. -/
def wMissing : World := ⟨.missing, 3, .ok "ok: true", true⟩

/-- On every bad configuration source, lines 9-12 raise a configparser
exception. -/
theorem resolveConfig_error_of_badSource (fs : FileState) (h : badSource fs) :
    ∃ e, resolveConfig fs = .error e := by
  rcases h with h | h | h | ⟨s, hs, hk⟩
  · exact ⟨.noSection "grpc", by subst h; rfl⟩
  · exact ⟨.noSection "grpc", by subst h; rfl⟩
  · exact ⟨.parsingError, by subst h; rfl⟩
  · subst hs
    rcases hk with hk | hk
    · cases hg : configGet s "grpc" "server" with
      | error e => exact ⟨e, by simp [resolveConfig, configRead, hg]⟩
      | ok v => rw [hg] at hk; simp [Except.isOk, Except.toBool] at hk
    · cases hg : configGet s "grpc" "server" with
      | error e => exact ⟨e, by simp [resolveConfig, configRead, hg]⟩
      | ok v =>
        cases hp : configGet s "grpc" "port" with
        | error e =>
          exact ⟨e, by simp [resolveConfig, configRead, hg, hp]⟩
        | ok v2 => rw [hp] at hk; simp [Except.isOk, Except.toBool] at hk

/-- C1: the built request's `time` field equals the current Unix timestamp
(the integer count of seconds since the epoch read from the clock at
construction) and is non-negative: for every clock reading,
`current_values` produces `values` with `time = currentUnixSeconds`. -/
theorem C1_request_time (clock : ℚ) (h : 0 ≤ clock) :
    (current_values clock).time = currentUnixSeconds clock ∧
    0 ≤ (current_values clock).time := by
  have hf : (current_values clock).time = ⌊clock⌋ := by
    simp [current_values, pyInt, h]
  exact ⟨by rw [hf]; rfl, by rw [hf]; exact Int.floor_nonneg.mpr h⟩

/-- Witness for C1 at the concrete clock reading 3/2. -/
theorem C1_request_time_witness :
    0 ≤ (3 / 2 : ℚ) ∧
    ((current_values (3 / 2)).time = currentUnixSeconds (3 / 2) ∧
     0 ≤ (current_values (3 / 2)).time) :=
  ⟨by norm_num, C1_request_time (3 / 2) (by norm_num)⟩

/-- C10: the `time` field is Python `int` truncation of the clock value;
for every clock reading `t ≥ 0` the stored value is `⌊t⌋`, never exceeds
the true elapsed seconds, and is never negative. -/
theorem C10_truncation (t : ℚ) (h : 0 ≤ t) :
    (current_values t).time = ⌊t⌋ ∧
    ((current_values t).time : ℚ) ≤ t ∧
    0 ≤ (current_values t).time := by
  have hf : (current_values t).time = ⌊t⌋ := by
    simp [current_values, pyInt, h]
  refine ⟨hf, ?_, ?_⟩
  · rw [hf]; exact Int.floor_le t
  · rw [hf]; exact Int.floor_nonneg.mpr h

/-- Witness for C10 at the concrete clock reading 7/2. -/
theorem C10_truncation_witness :
    0 ≤ (7 / 2 : ℚ) ∧
    ((current_values (7 / 2)).time = ⌊(7 / 2 : ℚ)⌋ ∧
     ((current_values (7 / 2)).time : ℚ) ≤ 7 / 2 ∧
     0 ≤ (current_values (7 / 2)).time) :=
  ⟨by norm_num, C10_truncation (7 / 2) (by norm_num)⟩

/-- C2: for every host/port pair the configuration yields, the target string
passed to the transport is exactly the host, one colon, the port — no extra
characters — with both fields having gone through the `str` coercion. -/
theorem C2_target_format (w : World) (server port : String)
    (h : resolveConfig w.file = .ok (server, port)) :
    Event.openChannel (server ++ ":" ++ port) ∈ (runModule w).1 ∧
    grpcserver (pyStr server) (pyStr port) = server ++ ":" ++ port ∧
    (grpcserver server port).length = server.length + 1 + port.length := by
  have hcolon : (":" : String).length = 1 := rfl
  refine ⟨?_, rfl, ?_⟩
  · unfold runModule
    rw [h]
    cases hm : w.isMain with
    | false => simp [grpcserver]
    | true =>
      cases hr : w.rpcResult with
      | error e => simp [grpcserver]
      | ok resp => simp [grpcserver]
  · simp [grpcserver, String.length_append, hcolon]

/-- Witness for C2 at the spec's concrete scenario configuration. -/
theorem C2_target_format_witness :
    resolveConfig wOk.file = .ok ("127.0.0.1", "50051") ∧
    (Event.openChannel ("127.0.0.1" ++ ":" ++ "50051") ∈ (runModule wOk).1 ∧
     grpcserver (pyStr "127.0.0.1") (pyStr "50051") = "127.0.0.1" ++ ":" ++ "50051" ∧
     (grpcserver "127.0.0.1" "50051").length =
       "127.0.0.1".length + 1 + "50051".length) :=
  ⟨rfl, C2_target_format wOk "127.0.0.1" "50051" rfl⟩

/-- C3: on every configuration source that is missing, unreadable, malformed,
or lacking the `server` or `port` key, the module terminates with a
configparser error and the trace holds no channel-creation event: the
failure precedes line 16. -/
theorem C3_config_error_before_channel (w : World) (h : badSource w.file) :
    (∃ e, (runModule w).2 = .error (PyError.configError e)) ∧
    (runModule w).1.countP isOpenChannel = 0 := by
  obtain ⟨e, he⟩ := resolveConfig_error_of_badSource w.file h
  refine ⟨⟨e, ?_⟩, ?_⟩
  · unfold runModule; rw [he]
  · unfold runModule; rw [he]; rfl

/-- Witness for C3 with `config.ini` absent. -/
theorem C3_config_error_before_channel_witness :
    badSource wMissing.file ∧
    ((∃ e, (runModule wMissing).2 = .error (PyError.configError e)) ∧
     (runModule wMissing).1.countP isOpenChannel = 0) :=
  ⟨Or.inl rfl, C3_config_error_before_channel wMissing (Or.inl rfl)⟩

/-- C9: an absent `config.ini` does not fail at the read step — the parser is
simply left empty — and the error surfaces at the first `config.get` as a
missing-section error for `grpc`, not as a file-read failure. -/
theorem C9_missing_file_semantics :
    configRead .missing = .ok [] ∧
    resolveConfig .missing = .error (.noSection "grpc") ∧
    resolveConfig .missing ≠ .error .parsingError := by
  refine ⟨rfl, rfl, fun hcontra => ?_⟩
  rw [show resolveConfig .missing = .error (.noSection "grpc") from rfl] at hcontra
  simp at hcontra

/-- C4: no error is caught anywhere in the module.  When the run as main
program fails, the configparser or RPC error reaches the process boundary
unmodified, the exit status is non-zero, and nothing was written to standard
output; when the exit status is zero, exactly one response was reported. -/
theorem C4_error_propagation (w : World) (hm : w.isMain = true) :
    ((runModule w).2.isOk = false →
      exitCode (runModule w).2 ≠ 0 ∧ (runModule w).1.countP isOutput = 0) ∧
    (exitCode (runModule w).2 = 0 → (runModule w).1.countP isOutput = 1) ∧
    (∀ err, w.rpcResult = .error err → (resolveConfig w.file).isOk = true →
      (runModule w).2 = .error (.rpcError err)) ∧
    (∀ err, resolveConfig w.file = .error err →
      (runModule w).2 = .error (.configError err)) := by
  cases hc : resolveConfig w.file with
  | error e =>
    refine ⟨fun _ => ?_, fun hz => ?_, fun err hr hok => ?_, fun err herr => ?_⟩
    · exact ⟨by simp [runModule, hc, exitCode], by simp [runModule, hc, isOutput]⟩
    · simp [runModule, hc, exitCode] at hz
    · simp [Except.isOk, Except.toBool] at hok
    · cases herr
      simp [runModule, hc]
  | ok p =>
    obtain ⟨server, port⟩ := p
    cases hr : w.rpcResult with
    | error e =>
      refine ⟨fun _ => ?_, fun hz => ?_, fun err hrr hok => ?_, fun err herr => ?_⟩
      · exact ⟨by simp [runModule, hc, hm, hr, exitCode],
               by simp [runModule, hc, hm, hr, isOutput]⟩
      · simp [runModule, hc, hm, hr, exitCode] at hz
      · cases hrr; simp [runModule, hc, hm, hr]
      · simp at herr
    | ok resp =>
      refine ⟨fun hbad => ?_, fun _ => ?_, fun err hrr hok => ?_, fun err herr => ?_⟩
      · simp [runModule, hc, hm, hr, Except.isOk, Except.toBool] at hbad
      · simp [runModule, hc, hm, hr, isOutput]
      · simp at hrr
      · simp at herr

/-- Witness for C4 on a run whose RPC call fails against an unreachable
target. -/
theorem C4_error_propagation_witness :
    (runModule wFail).2.isOk = false ∧
    exitCode (runModule wFail).2 ≠ 0 ∧
    (runModule wFail).1.countP isOutput = 0 :=
  ⟨rfl, (C4_error_propagation wFail rfl).1 rfl⟩

/-- C5: the trace of every run holds at most one RPC invocation, and the run
as main program with resolvable configuration holds exactly one — also when
the call fails, so a failed call is never retried. -/
theorem C5_single_invocation (w : World) :
    (runModule w).1.countP isInvoke ≤ 1 ∧
    (w.isMain = true → (resolveConfig w.file).isOk = true →
      (runModule w).1.countP isInvoke = 1) := by
  cases hc : resolveConfig w.file with
  | error e =>
    refine ⟨by simp [runModule, hc, isInvoke], fun hm hok => ?_⟩
    simp [Except.isOk, Except.toBool] at hok
  | ok p =>
    obtain ⟨server, port⟩ := p
    cases hm : w.isMain with
    | false => exact ⟨by simp [runModule, hc, hm, isInvoke], by simp [hm]⟩
    | true =>
      cases hr : w.rpcResult with
      | error e =>
        exact ⟨by simp [runModule, hc, hm, hr, isInvoke],
               fun _ _ => by simp [runModule, hc, hm, hr, isInvoke]⟩
      | ok resp =>
        exact ⟨by simp [runModule, hc, hm, hr, isInvoke],
               fun _ _ => by simp [runModule, hc, hm, hr, isInvoke]⟩

/-- Witness for C5 on a run whose single call fails: still exactly one
invocation, no retry. -/
theorem C5_single_invocation_witness :
    (runModule wFail).1.countP isInvoke ≤ 1 ∧
    (runModule wFail).1.countP isInvoke = 1 :=
  ⟨(C5_single_invocation wFail).1, (C5_single_invocation wFail).2 rfl rfl⟩

/-- C7: on every successful invocation the response string the RPC returned
is printed unmodified, it is the sole write to standard output, and the
process terminates normally. -/
theorem C7_report_unmodified (w : World) (resp : String)
    (hm : w.isMain = true) (hc : (resolveConfig w.file).isOk = true)
    (hr : w.rpcResult = .ok resp) :
    (runModule w).1.countP isOutput = 1 ∧
    Event.printOutput resp ∈ (runModule w).1 ∧
    (runModule w).2 = .ok () := by
  cases hcc : resolveConfig w.file with
  | error e => rw [hcc] at hc; simp [Except.isOk, Except.toBool] at hc
  | ok p =>
    obtain ⟨server, port⟩ := p
    refine ⟨?_, ?_, ?_⟩ <;> simp [runModule, hcc, hm, hr, isOutput]

/-- Witness for C7 at the spec's concrete success scenario. -/
theorem C7_report_unmodified_witness :
    wOk.isMain = true ∧
    ((runModule wOk).1.countP isOutput = 1 ∧
     Event.printOutput "ok: true" ∈ (runModule wOk).1 ∧
     (runModule wOk).2 = .ok ()) :=
  ⟨rfl, C7_report_unmodified wOk "ok: true" rfl rfl rfl⟩

/-- C8: config reading, channel creation and stub binding run at module load
even on a bare import — which therefore issues no RPC and writes no output —
while in every run each RPC invocation is preceded by channel creation. -/
theorem C8_load_vs_main (w : World) :
    (w.isMain = false →
      (runModule w).1.countP isInvoke = 0 ∧
      (runModule w).1.countP isOutput = 0 ∧
      ((resolveConfig w.file).isOk = true → ∃ t,
        (runModule w).1 = [.readConfig, .openChannel t, .bindStub])) ∧
    opensBeforeInvokes (runModule w).1 = true := by
  cases hc : resolveConfig w.file with
  | error e =>
    refine ⟨fun hm => ⟨?_, ?_, fun hok => ?_⟩, ?_⟩
    · simp [runModule, hc, isInvoke]
    · simp [runModule, hc, isOutput]
    · simp [Except.isOk, Except.toBool] at hok
    · simp [runModule, hc, opensBeforeInvokes, opensBeforeInvokesGo, isInvoke]
  | ok p =>
    obtain ⟨server, port⟩ := p
    cases hm : w.isMain with
    | false =>
      refine ⟨fun _ => ⟨?_, ?_, fun _ => ⟨grpcserver server port, ?_⟩⟩, ?_⟩
      · simp [runModule, hc, hm, isInvoke]
      · simp [runModule, hc, hm, isOutput]
      · simp [runModule, hc, hm]
      · simp [runModule, hc, hm, opensBeforeInvokes, opensBeforeInvokesGo,
          isInvoke, isOpenChannel]
    | true =>
      refine ⟨fun hcontra => absurd hcontra (by simp), ?_⟩
      cases hr : w.rpcResult with
      | error e =>
        simp [runModule, hc, hm, hr, opensBeforeInvokes, opensBeforeInvokesGo,
          isInvoke, isOpenChannel, isOutput]
      | ok resp =>
        simp [runModule, hc, hm, hr, opensBeforeInvokes, opensBeforeInvokesGo,
          isInvoke, isOpenChannel, isOutput]

/-- Witness for C8 on a bare import with a good configuration. -/
theorem C8_load_vs_main_witness :
    ((runModule wImport).1.countP isInvoke = 0 ∧
     (runModule wImport).1.countP isOutput = 0 ∧
     (∃ t, (runModule wImport).1 = [.readConfig, .openChannel t, .bindStub])) ∧
    opensBeforeInvokes (runModule wImport).1 = true :=
  ⟨⟨((C8_load_vs_main wImport).1 rfl).1, ((C8_load_vs_main wImport).1 rfl).2.1,
    ((C8_load_vs_main wImport).1 rfl).2.2 rfl⟩,
   (C8_load_vs_main wImport).2⟩

end BgpInfo
